import Mathlib

/-!
# Verification of the 42 logtime tracker core

Shallow embedding of the Raycast "42 API" extension's core logic:

* the menubar command's confetti celebration tracker (`checkAndCelebrate`
  in the menubar command file, bundled with `src/lib/types.ts`),
* the preference defaults pipeline (`Number(preferences.goalHours) || 6`,
  `Number(preferences.goalMinutes) || 39`),
* the pinned-users list and cache (`togglePin`, `cacheUser`,
  `removeCachedUser`, `uncachedLogins`, `pinnedUsers` in the user grid
  command).

JavaScript numbers are modelled as `Int` (every value the code handles is
an integer number of seconds or an id); `NaN` results of `Number()` are
modelled as `none`; JavaScript objects used as string-keyed records are
modelled as functions `String → Option _`.
-/

namespace FtApi

/-- 42 User object from the API (`src/lib/types.ts`): the fields the
embedded operations touch. `location` is `string | null`. -/
structure User where
  id : Int
  login : String
  location : Option String
  imageLink : String
  url : String
deriving DecidableEq, Repr

/-- Preferences record (`src/lib/types.ts`): optional fields are `Option`.
`goalHours` and `goalMinutes` arrive as strings from the preference UI. -/
structure Preferences where
  clientId : String
  clientSecret : String
  debugMode : Option Bool
  userLogin : Option String
  goalHours : Option String
  goalMinutes : Option String
deriving DecidableEq, Repr

/-! ## JavaScript `Number()` and the `|| default` pipeline -/

/-- Parse a list of characters as a JavaScript decimal integer: optional
sign followed by at least one digit. `none` models `NaN`. -/
def jsNumberChars (cs : List Char) : Option Int :=
  match cs with
  | [] => some 0
  | _ =>
    let signed : Int × List Char :=
      match cs with
      | '-' :: rest => (-1, rest)
      | '+' :: rest => (1, rest)
      | _ => (1, cs)
    if signed.2 ≠ [] ∧ signed.2.all Char.isDigit then
      some (signed.1 * (signed.2.foldl (fun n c => n * 10 + (c.toNat - 48)) 0 : Nat))
    else none

/-- Model of JavaScript `Number(s)` on the preference strings this
extension reads: surrounding whitespace is ignored, the empty (or
all-whitespace) string is `0`, an optionally signed decimal integer
parses, and anything else is `NaN` (`none`). (Fractional and hexadecimal
literals, which the goal preferences never meaningfully hold, are out of
the model and also map to `none`.) -/
def jsNumber (s : String) : Option Int :=
  jsNumberChars (((s.data.dropWhile Char.isWhitespace).reverse.dropWhile
    Char.isWhitespace).reverse)

/-- `Number(x)` where `x` is an optional (possibly missing) preference
string: `Number(undefined)` is `NaN`. -/
def jsNumberPref : Option String → Option Int
  | none => none
  | some s => jsNumber s

/-- JavaScript `v || d` where `v` is a number-or-NaN: `NaN` and `0` are
falsy and select the default. -/
def numberOr (v : Option Int) (d : Int) : Int :=
  match v with
  | none => d
  | some n => if n = 0 then d else n

/-- `const goalHours = Number(preferences.goalHours) || 6;` -/
def effectiveGoalHours (p : Preferences) : Int :=
  numberOr (jsNumberPref p.goalHours) 6

/-- `const goalMinutes = Number(preferences.goalMinutes) || 39;` -/
def effectiveGoalMinutes (p : Preferences) : Int :=
  numberOr (jsNumberPref p.goalMinutes) 39

/-! ## Celebration tracker -/

/-- Persisted confetti state (the JSON stored under `"confetti-state"`). -/
structure CelebrationState where
  lastTriggeredDate : String
  lastLogtimeSeconds : Int
  lastLogtimeDate : String
deriving DecidableEq, Repr

/-- The state `checkAndCelebrate` uses when nothing is stored yet:
`{ lastTriggeredDate: "", lastLogtimeSeconds: 0, lastLogtimeDate: "" }`. -/
def initialCelebrationState : CelebrationState :=
  { lastTriggeredDate := "", lastLogtimeSeconds := 0, lastLogtimeDate := "" }

/-- Observable outcome of one `checkAndCelebrate` call: whether the
confetti side effect fired, whether the persisted state was read
(`LocalStorage.getItem` reached), and the state written back
(`none` when no `LocalStorage.setItem` happened). -/
structure CycleResult where
  fired : Bool
  readState : Bool
  write : Option CelebrationState
deriving DecidableEq, Repr

/-- `const goalSeconds = goalHours * 3600 + goalMinutes * 60;` -/
def goalSeconds (goalHours goalMinutes : Int) : Int :=
  goalHours * 3600 + goalMinutes * 60

/-- The `shouldTrigger` expression of `checkAndCelebrate`:
`goalReached && state.lastTriggeredDate !== todayStr && lastKnownLogtime < goalSeconds`,
where `lastKnownLogtime` is `0` on a new day
(`state.lastLogtimeDate !== todayStr`) and `state.lastLogtimeSeconds`
otherwise. -/
def shouldTrigger (state : CelebrationState) (goalHours goalMinutes : Int)
    (todayStr : String) (goalReached : Bool) : Bool :=
  goalReached && (state.lastTriggeredDate != todayStr) &&
    decide ((if state.lastLogtimeDate != todayStr then (0 : Int)
             else state.lastLogtimeSeconds) < goalSeconds goalHours goalMinutes)

/-- `checkAndCelebrate` from the menubar command: returns early (no read,
no write, no confetti) in background mode or while loading or without
stats; otherwise reads the stored state (defaulting to
`initialCelebrationState`), fires and persists
`{lastTriggeredDate: todayStr, lastLogtimeSeconds: todayLogtimeSeconds,
lastLogtimeDate: todayStr}` when `shouldTrigger`, and otherwise persists
the refreshed logtime/date only when one of them changed. -/
def checkAndCelebrate (isBackgroundMode isLoading statsPresent : Bool)
    (stored : Option CelebrationState) (goalHours goalMinutes : Int)
    (todayStr : String) (goalReached : Bool) (todayLogtimeSeconds : Int) :
    CycleResult :=
  if isBackgroundMode || isLoading || !statsPresent then
    { fired := false, readState := false, write := none }
  else
    let state := stored.getD initialCelebrationState
    if shouldTrigger state goalHours goalMinutes todayStr goalReached then
      { fired := true, readState := true,
        write := some { lastTriggeredDate := todayStr,
                        lastLogtimeSeconds := todayLogtimeSeconds,
                        lastLogtimeDate := todayStr } }
    else if state.lastLogtimeSeconds != todayLogtimeSeconds ||
        state.lastLogtimeDate != todayStr then
      { fired := false, readState := true,
        write := some { state with lastLogtimeSeconds := todayLogtimeSeconds,
                                   lastLogtimeDate := todayStr } }
    else
      { fired := false, readState := true, write := none }

/-- Inputs of one evaluation cycle other than the date and the stored
state. -/
structure CycleInput where
  isBackgroundMode : Bool
  isLoading : Bool
  statsPresent : Bool
  goalHours : Int
  goalMinutes : Int
  goalReached : Bool
  todayLogtimeSeconds : Int
deriving DecidableEq, Repr

/-- One evaluation cycle on date `D` from a given stored state. -/
def runCycle (D : String) (inp : CycleInput)
    (stored : Option CelebrationState) : CycleResult :=
  checkAndCelebrate inp.isBackgroundMode inp.isLoading inp.statsPresent
    stored inp.goalHours inp.goalMinutes D inp.goalReached
    inp.todayLogtimeSeconds

/-- The stored state after a cycle: the written state if the cycle wrote,
the previous one otherwise. -/
def postStore (stored : Option CelebrationState) (r : CycleResult) :
    Option CelebrationState :=
  match r.write with
  | some s => some s
  | none => stored

/-- Number of cycles in a sequence (all evaluated on date `D`, state
threaded through) that fire the celebration. -/
def firesCount (D : String) :
    Option CelebrationState → List CycleInput → Nat
  | _, [] => 0
  | stored, inp :: rest =>
    (if (runCycle D inp stored).fired then 1 else 0) +
      firesCount D (postStore stored (runCycle D inp stored)) rest

/-! ## Menubar fetch enablement -/

/-- `execute: isBackgroundMode && !!preferences.userLogin` for the user
fetch (`!!` of a missing or empty string is false). -/
def userFetchExecute (isBackgroundMode : Bool) (userLogin : Option String) :
    Bool :=
  isBackgroundMode &&
    (match userLogin with
     | none => false
     | some s => s != "")

/-- `execute: isBackgroundMode && !!user?.id` for the stats fetch (`!!` of
a missing user or a zero id is false). -/
def statsFetchExecute (isBackgroundMode : Bool) (user : Option User) :
    Bool :=
  isBackgroundMode &&
    (match user with
     | none => false
     | some u => u.id != 0)

/-! ## Pinned users -/

/-- The pinned state of the user grid command: the persisted ordered
login list (`pinned-users`) and the persisted login→snapshot cache
(`pinned-users-cache`, a string-keyed record modelled pointwise). -/
structure PinState where
  pins : List String
  cache : String → Option User

/-- `cacheUser(user)`: `{ ...cache, [user.login]: user }`. -/
def cacheUser (u : User) (cache : String → Option User) :
    String → Option User :=
  fun l => if l = u.login then some u else cache l

/-- `removeCachedUser(login)`: copy the record and `delete` the key. -/
def removeCachedUser (login : String) (cache : String → Option User) :
    String → Option User :=
  fun l => if l = login then none else cache l

/-- `togglePin(user)`: if `user.login` is in the pinned list
(`includes`), remove it (`filter`) and delete its cache entry; otherwise
append it and cache the snapshot. -/
def togglePin (u : User) (s : PinState) : PinState :=
  if u.login ∈ s.pins then
    { pins := s.pins.filter (fun l => l != u.login),
      cache := removeCachedUser u.login s.cache }
  else
    { pins := s.pins ++ [u.login],
      cache := cacheUser u s.cache }

/-- `isPinned(login)`: membership in the pinned list. -/
def isPinned (login : String) (s : PinState) : Bool :=
  login ∈ s.pins

/-- `uncachedLogins`: `pinnedUserLogins.filter((login) => !pinnedUsersCache[login])`
— the pinned logins with no cache entry, in pin order. -/
def uncachedLogins (pins : List String) (cache : String → Option User) :
    List String :=
  pins.filter (fun login => (cache login).isNone)

/-- `pinnedUsers`: `pinnedUserLogins.map((login) => pinnedUsersCache[login]).filter(Boolean)`
— the cached snapshots of the pinned logins, in pin order
(`filter(Boolean)` keeps exactly the present values). -/
def pinnedUsers (pins : List String) (cache : String → Option User) :
    List User :=
  (pins.map (fun login => cache login)).filterMap (fun o => o)

/-! ## Helper lemmas about the celebration tracker -/

/-- An evaluated (non-skipped) cycle fires exactly when `shouldTrigger`
holds of the stored state (defaulted when absent). -/
theorem fired_eq (stored : Option CelebrationState) (gh gm : Int)
    (D : String) (gr : Bool) (t : Int) :
    (checkAndCelebrate false false true stored gh gm D gr t).fired =
      shouldTrigger (stored.getD initialCelebrationState) gh gm D gr := by
  unfold checkAndCelebrate
  rw [if_neg (by decide : ¬ ((false || false || !true) = true))]
  cases h : shouldTrigger (stored.getD initialCelebrationState) gh gm D gr
  · rw [if_neg (by simp [h])]
    split <;> rfl
  · rw [if_pos h]

/-- Unfolding of the Boolean fire condition into its three conjuncts. -/
theorem shouldTrigger_iff (st : CelebrationState) (gh gm : Int)
    (D : String) (gr : Bool) :
    shouldTrigger st gh gm D gr = true ↔
      (gr = true ∧ st.lastTriggeredDate ≠ D ∧
        (if st.lastLogtimeDate ≠ D then (0 : Int) else st.lastLogtimeSeconds) <
          goalSeconds gh gm) := by
  simp only [shouldTrigger, Bool.and_eq_true, bne_iff_ne, ne_eq,
    decide_eq_true_eq, and_assoc]

/-- Write behaviour of an evaluated cycle that does not trigger. -/
theorem write_eq (stored : Option CelebrationState) (gh gm : Int)
    (D : String) (gr : Bool) (t : Int)
    (h : shouldTrigger (stored.getD initialCelebrationState) gh gm D gr
      = false) :
    (checkAndCelebrate false false true stored gh gm D gr t).write =
      if (stored.getD initialCelebrationState).lastLogtimeSeconds != t ||
          (stored.getD initialCelebrationState).lastLogtimeDate != D
      then some ⟨(stored.getD initialCelebrationState).lastTriggeredDate, t, D⟩
      else none := by
  unfold checkAndCelebrate
  rw [if_neg (by decide : ¬ ((false || false || !true) = true)),
    if_neg (by simp [h])]
  split <;> rfl

/-! ## Claim theorems: celebration tracker -/

/-- C1: an evaluated (not skipped) cycle fires the celebration iff
`goalReached` is true, `state.lastTriggeredDate ≠ D`, and
`lastKnownLogtime < goalSeconds` where `lastKnownLogtime` is `0` on a new
day (`state.lastLogtimeDate ≠ D`) and `state.lastLogtimeSeconds`
otherwise, with `goalSeconds = goalHours*3600 + goalMinutes*60`; in
particular, on a new day with `goalReached` true and a positive goal it
fires even if a previous day already fired. -/
theorem fire_condition_iff (stored : Option CelebrationState)
    (gh gm t : Int) (D : String) (gr : Bool) :
    ((checkAndCelebrate false false true stored gh gm D gr t).fired = true ↔
      (gr = true ∧
        (stored.getD initialCelebrationState).lastTriggeredDate ≠ D ∧
        (if (stored.getD initialCelebrationState).lastLogtimeDate ≠ D
         then (0 : Int)
         else (stored.getD initialCelebrationState).lastLogtimeSeconds) <
          goalSeconds gh gm)) ∧
    ((stored.getD initialCelebrationState).lastLogtimeDate ≠ D →
      gr = true →
      (stored.getD initialCelebrationState).lastTriggeredDate ≠ D →
      0 < goalSeconds gh gm →
      (checkAndCelebrate false false true stored gh gm D gr t).fired
        = true) := by
  constructor
  · rw [fired_eq, shouldTrigger_iff]
  · intro hnew hgr htrig hpos
    rw [fired_eq, shouldTrigger_iff]
    exact ⟨hgr, htrig, by rw [if_pos hnew]; exact hpos⟩

/-- C1 witness: yesterday already fired (`lastTriggeredDate` is the
previous day), today is a new day with the goal reached, so the cycle
fires. -/
theorem fire_condition_iff_witness :
    (checkAndCelebrate false false true
      (some ⟨"2024-01-15", 30000, "2024-01-15"⟩) 6 39 "2024-01-16" true
      100).fired = true :=
  (fire_condition_iff (some ⟨"2024-01-15", 30000, "2024-01-15"⟩) 6 39 100
    "2024-01-16" true).2 (by decide) rfl (by decide) (by decide)

/-- C3: if today's stored logtime already meets the (possibly lowered)
goal, an evaluated cycle on the same date does not fire even with
`goalReached` true and `lastTriggeredDate ≠ D`; conversely, when the
stored value is below the threshold the guard does not block: firing is
then equivalent to the remaining two conditions. -/
theorem lowered_goal_guard (stored : Option CelebrationState)
    (gh gm t : Int) (D : String) (gr : Bool) :
    ((stored.getD initialCelebrationState).lastLogtimeDate = D →
      goalSeconds gh gm ≤
        (stored.getD initialCelebrationState).lastLogtimeSeconds →
      (checkAndCelebrate false false true stored gh gm D gr t).fired
        = false) ∧
    ((if (stored.getD initialCelebrationState).lastLogtimeDate ≠ D
      then (0 : Int)
      else (stored.getD initialCelebrationState).lastLogtimeSeconds) <
        goalSeconds gh gm →
      ((checkAndCelebrate false false true stored gh gm D gr t).fired = true
        ↔ (gr = true ∧
            (stored.getD initialCelebrationState).lastTriggeredDate ≠ D))) := by
  constructor
  · intro hday hmet
    rw [fired_eq]
    rcases h : shouldTrigger (stored.getD initialCelebrationState) gh gm D gr
    · rfl
    · exfalso
      obtain ⟨-, -, hlt⟩ := (shouldTrigger_iff _ _ _ _ _).mp h
      rw [if_neg (by simp [hday])] at hlt
      exact absurd hlt (not_lt.mpr hmet)
  · intro hbelow
    rw [fired_eq, shouldTrigger_iff]
    exact ⟨fun ⟨a, b, _⟩ => ⟨a, b⟩, fun ⟨a, b⟩ => ⟨a, b, hbelow⟩⟩

/-- C3 witness: goal lowered to 6h0m after 25000s were recorded today
(25000 ≥ 21600) — no fire despite `goalReached`; and with only 20000s
recorded (below 21600) the guard holds and the cycle fires. -/
theorem lowered_goal_guard_witness :
    (checkAndCelebrate false false true (some ⟨"", 25000, "2024-01-15"⟩)
      6 0 "2024-01-15" true 25000).fired = false ∧
    (checkAndCelebrate false false true (some ⟨"", 20000, "2024-01-15"⟩)
      6 0 "2024-01-15" true 25000).fired = true :=
  ⟨(lowered_goal_guard (some ⟨"", 25000, "2024-01-15"⟩) 6 0 25000
      "2024-01-15" true).1 rfl (by decide),
   ((lowered_goal_guard (some ⟨"", 20000, "2024-01-15"⟩) 6 0 25000
      "2024-01-15" true).2 (by decide)).mpr ⟨rfl, by decide⟩⟩

/-- C4: an evaluated cycle that does not fire preserves
`lastTriggeredDate`, writes `lastLogtimeSeconds := todayLogtimeSeconds`
and `lastLogtimeDate := D` exactly when one of them differs from the
stored values, and performs no write when both already match. -/
theorem no_fire_frame (stored : Option CelebrationState) (gh gm t : Int)
    (D : String) (gr : Bool)
    (hnf : (checkAndCelebrate false false true stored gh gm D gr t).fired
      = false) :
    (checkAndCelebrate false false true stored gh gm D gr t).write =
      if (stored.getD initialCelebrationState).lastLogtimeSeconds != t ||
          (stored.getD initialCelebrationState).lastLogtimeDate != D
      then some ⟨(stored.getD initialCelebrationState).lastTriggeredDate,
                 t, D⟩
      else none := by
  rw [fired_eq] at hnf
  exact write_eq stored gh gm D gr t hnf

/-- C4 witness: a non-firing cycle with fresh logtime 500 on a new date
persists the refreshed logtime/date and keeps `lastTriggeredDate`. -/
theorem no_fire_frame_witness :
    (checkAndCelebrate false false true none 6 39 "2024-01-15" false
      500).write = some ⟨"", 500, "2024-01-15"⟩ :=
  (no_fire_frame none 6 39 500 "2024-01-15" false (by decide)).trans
    (by decide)

/-- C5: while the upstream fetch is loading or has produced no stats, the
tracker neither fires, nor reads, nor writes the persisted state, which
is unchanged by the cycle. -/
theorem skipped_while_loading (bg ld sp : Bool)
    (stored : Option CelebrationState) (gh gm t : Int) (D : String)
    (gr : Bool) (h : ld = true ∨ sp = false) :
    checkAndCelebrate bg ld sp stored gh gm D gr t =
      { fired := false, readState := false, write := none } ∧
    postStore stored (checkAndCelebrate bg ld sp stored gh gm D gr t)
      = stored := by
    have hc : (bg || ld || !sp) = true := by
      rcases h with h | h <;> subst h <;> simp
    refine ⟨?_, ?_⟩ <;> unfold checkAndCelebrate <;> rw [if_pos hc]
    rfl

/-- C5 witness: a loading cycle leaves everything untouched. -/
theorem skipped_while_loading_witness :
    checkAndCelebrate false true true (some initialCelebrationState) 6 39
      "2024-01-15" true 25000 =
      { fired := false, readState := false, write := none } :=
  (skipped_while_loading false true true (some initialCelebrationState)
    6 39 25000 "2024-01-15" true (Or.inl rfl)).1

/-- A cycle run on date `D` from a stored state whose `lastTriggeredDate`
is already `D` does not fire, and the stored state after it still has
`lastTriggeredDate = D`. -/
theorem runCycle_triggered_preserved (D : String) (inp : CycleInput)
    (s : CelebrationState) (h : s.lastTriggeredDate = D) :
    (runCycle D inp (some s)).fired = false ∧
    ∃ s', postStore (some s) (runCycle D inp (some s)) = some s' ∧
      s'.lastTriggeredDate = D := by
  unfold runCycle checkAndCelebrate
  split
  · exact ⟨rfl, s, rfl, h⟩
  · have hst : shouldTrigger s inp.goalHours inp.goalMinutes D
        inp.goalReached = false := by
      simp [shouldTrigger, h]
    rw [if_neg (by simp [hst])]
    split
    · exact ⟨rfl, _, rfl, h⟩
    · exact ⟨rfl, s, rfl, h⟩

/-- No cycle of a sequence run on date `D` fires once the stored
`lastTriggeredDate` is `D`. -/
theorem firesCount_eq_zero (D : String) (l : List CycleInput) :
    ∀ s : CelebrationState, s.lastTriggeredDate = D →
      firesCount D (some s) l = 0 := by
  induction l with
  | nil => intro s _; rfl
  | cons inp rest ih =>
    intro s h
    obtain ⟨hf, s', hpost, hs'⟩ := runCycle_triggered_preserved D inp s h
    rw [firesCount, hf, hpost, if_neg (by simp), ih s' hs']

/-- A firing cycle writes `{lastTriggeredDate: D, lastLogtimeSeconds:
todayLogtimeSeconds, lastLogtimeDate: D}`. -/
theorem runCycle_fired_write (D : String) (inp : CycleInput)
    (stored : Option CelebrationState)
    (h : (runCycle D inp stored).fired = true) :
    (runCycle D inp stored).write =
      some ⟨D, inp.todayLogtimeSeconds, D⟩ := by
  unfold runCycle checkAndCelebrate at h ⊢
  split at h
  · exact absurd h (by simp)
  · next hc =>
    rw [if_neg hc]
    simp only [] at h ⊢
    split at h
    · next hst => rw [if_pos hst]
    · next hst =>
      exfalso
      split at h <;> exact absurd h (by simp)

/-- C2: once a firing cycle on date `D` persists `lastTriggeredDate = D`,
no later cycle evaluated on date `D` fires again, whatever its inputs. -/
theorem celebration_once_per_day (D : String)
    (stored : Option CelebrationState) (inp : CycleInput)
    (rest : List CycleInput)
    (hfire : (runCycle D inp stored).fired = true) :
    (runCycle D inp stored).write = some ⟨D, inp.todayLogtimeSeconds, D⟩ ∧
    firesCount D (postStore stored (runCycle D inp stored)) rest = 0 := by
  have hw := runCycle_fired_write D inp stored hfire
  refine ⟨hw, ?_⟩
  have hpost : postStore stored (runCycle D inp stored) =
      some ⟨D, inp.todayLogtimeSeconds, D⟩ := by
    unfold postStore
    rw [hw]
  rw [hpost]
  exact firesCount_eq_zero D rest _ rfl

/-- C2 witness: the spec's example — empty state, `D="2024-01-15"`,
goal reached with 25000s — fires and persists `lastTriggeredDate`; a
second cycle with identical inputs on the same date does not fire. -/
theorem celebration_once_per_day_witness :
    (runCycle "2024-01-15" ⟨false, false, true, 6, 39, true, 25000⟩
      (some ⟨"", 0, ""⟩)).write = some ⟨"2024-01-15", 25000, "2024-01-15"⟩ ∧
    firesCount "2024-01-15"
      (postStore (some ⟨"", 0, ""⟩)
        (runCycle "2024-01-15" ⟨false, false, true, 6, 39, true, 25000⟩
          (some ⟨"", 0, ""⟩)))
      [⟨false, false, true, 6, 39, true, 25000⟩] = 0 :=
  celebration_once_per_day "2024-01-15" (some ⟨"", 0, ""⟩)
    ⟨false, false, true, 6, 39, true, 25000⟩
    [⟨false, false, true, 6, 39, true, 25000⟩] (by decide)

/-- C6: in background mode `checkAndCelebrate` returns before reading or
writing the persisted state — it never fires and leaves the stored state
unchanged — even though an enabled user fetch or stats fetch
(`execute: isBackgroundMode && …`) implies background mode. -/
theorem background_mode_inert (ld sp : Bool)
    (stored : Option CelebrationState) (gh gm t : Int) (D : String)
    (gr : Bool) :
    (checkAndCelebrate true ld sp stored gh gm D gr t =
      { fired := false, readState := false, write := none }) ∧
    postStore stored (checkAndCelebrate true ld sp stored gh gm D gr t)
      = stored ∧
    (∀ bg : Bool, ∀ login : Option String,
      userFetchExecute bg login = true → bg = true) ∧
    (∀ bg : Bool, ∀ u : Option User,
      statsFetchExecute bg u = true → bg = true) := by
  refine ⟨?_, ?_, ?_, ?_⟩
  · unfold checkAndCelebrate
    rw [if_pos (by simp)]
  · unfold checkAndCelebrate
    rw [if_pos (by simp)]
    rfl
  · intro bg login h
    exact (Bool.and_eq_true _ _).mp ((userFetchExecute.eq_def _ _) ▸ h)
      |>.1
  · intro bg u h
    exact (Bool.and_eq_true _ _).mp ((statsFetchExecute.eq_def _ _) ▸ h)
      |>.1

/-- C6 witness: a background cycle with stats present and the goal
reached neither fires nor writes, and an enabled user fetch implies
background mode. -/
theorem background_mode_inert_witness :
    checkAndCelebrate true false true (some initialCelebrationState) 6 39
      "2024-01-15" true 25000 =
      { fired := false, readState := false, write := none } :=
  (background_mode_inert false true (some initialCelebrationState) 6 39
    25000 "2024-01-15" true).1

/-! ## Claim theorems: pinned users -/

/-- A concrete user snapshot with login `"a"`. -/
def userA : User := ⟨1, "a", none, "img-a", "url-a"⟩

/-- A cache holding only the snapshot for login `"a"`. -/
def cacheA : String → Option User :=
  fun l => if l = "a" then some userA else none

/-- The pin state in which `"a"` is pinned and cached. -/
def pinStateA : PinState := ⟨["a"], cacheA⟩

/-- C7 counterexample: starting from a state where `userA` is pinned and
cached, toggling twice does not leave the cache without an entry for
`"a"` — the second toggle re-caches the snapshot — so the claimed
conjunction fails at this input. -/
theorem togglePin_twice_claim_false :
    ¬ ((togglePin userA (togglePin userA pinStateA)).pins = pinStateA.pins ∧
       (togglePin userA (togglePin userA pinStateA)).cache "a" = none) := by
  decide

/-- C7 (amended): toggling twice from an unpinned state restores the pin
list and leaves no cache entry for `u.login`; toggling twice from a
pinned state keeps the same set of pinned logins (with `u.login` moved to
the end) and leaves the cache entry overwritten with `u`'s snapshot. -/
theorem togglePin_twice (u : User) (s : PinState) :
    (u.login ∉ s.pins →
      (togglePin u (togglePin u s)).pins = s.pins ∧
      (togglePin u (togglePin u s)).cache u.login = none) ∧
    (u.login ∈ s.pins →
      (togglePin u (togglePin u s)).pins =
        s.pins.filter (fun l => l != u.login) ++ [u.login] ∧
      (togglePin u (togglePin u s)).cache u.login = some u ∧
      ∀ l, (l ∈ (togglePin u (togglePin u s)).pins ↔ l ∈ s.pins)) := by
  constructor
  · intro hp
    have hmem : u.login ∈ s.pins ++ [u.login] := by simp
    have hfilter : (s.pins ++ [u.login]).filter (fun l => l != u.login)
        = s.pins := by
      rw [List.filter_append]
      have h1 : s.pins.filter (fun l => l != u.login) = s.pins :=
        List.filter_eq_self.mpr fun a ha => by
          simp only [bne_iff_ne, ne_eq, decide_eq_true_eq]
          exact fun hEq => hp (hEq ▸ ha)
      have h2 : [u.login].filter (fun l => l != u.login) = [] := by simp
      rw [h1, h2, List.append_nil]
    refine ⟨?_, ?_⟩
    · simp only [togglePin, if_neg hp, if_pos hmem]
      exact hfilter
    · simp [togglePin, if_neg hp, if_pos hmem, removeCachedUser]
  · intro hp
    have hnot : u.login ∉ s.pins.filter (fun l => l != u.login) := by
      simp [List.mem_filter]
    refine ⟨?_, ?_, ?_⟩
    · simp only [togglePin, if_pos hp, if_neg hnot]
    · simp [togglePin, if_pos hp, if_neg hnot, cacheUser]
    · intro l
      simp only [togglePin, if_pos hp, if_neg hnot]
      by_cases hl : l = u.login
      · subst hl
        simp [hp]
      · simp [List.mem_filter, List.mem_append, hl]

/-- C7 witness for the amended claim: pinning and unpinning a fresh user
restores the empty pin list and leaves its cache entry absent. -/
theorem togglePin_twice_witness :
    (togglePin userA (togglePin userA ⟨[], fun _ => none⟩)).pins = [] ∧
    (togglePin userA (togglePin userA ⟨[], fun _ => none⟩)).cache "a"
      = none :=
  (togglePin_twice userA ⟨[], fun _ => none⟩).1 (by decide)

/-- C8: toggling a pinned user removes its login (other logins keep their
membership) and deletes its cache entry; toggling an unpinned user
appends its login and stores its snapshot; cache entries of other logins
are unchanged either way. -/
theorem togglePin_correct (u : User) (s : PinState) :
    (u.login ∈ s.pins →
      u.login ∉ (togglePin u s).pins ∧
      (togglePin u s).cache u.login = none) ∧
    (u.login ∉ s.pins →
      (togglePin u s).pins = s.pins ++ [u.login] ∧
      (togglePin u s).cache u.login = some u) ∧
    (∀ l, l ≠ u.login →
      (togglePin u s).cache l = s.cache l ∧
      ((l ∈ (togglePin u s).pins) ↔ l ∈ s.pins)) := by
  refine ⟨fun hp => ⟨?_, ?_⟩, fun hp => ⟨?_, ?_⟩, fun l hl => ?_⟩
  · simp [togglePin, if_pos hp, List.mem_filter]
  · simp [togglePin, if_pos hp, removeCachedUser]
  · simp [togglePin, if_neg hp]
  · simp [togglePin, if_neg hp, cacheUser]
  · by_cases hp : u.login ∈ s.pins
    · simp [togglePin, if_pos hp, removeCachedUser, hl,
        List.mem_filter, hl]
    · simp [togglePin, if_neg hp, cacheUser, hl, List.mem_append, hl]

/-- C8 witness: toggling `userA` in the state where it is pinned and
cached unpins it and clears its entry. -/
theorem togglePin_correct_witness :
    "a" ∉ (togglePin userA pinStateA).pins ∧
    (togglePin userA pinStateA).cache "a" = none :=
  (togglePin_correct userA pinStateA).1 (by decide)

/-- The cached and missing logins of a pin list partition it: their
counts sum to the pin count. -/
theorem pinnedUsers_length_add_uncached_length (pins : List String)
    (cache : String → Option User) :
    (pinnedUsers pins cache).length + (uncachedLogins pins cache).length
      = pins.length := by
  induction pins with
  | nil => rfl
  | cons l rest ih =>
    cases h : cache l <;>
      simp [pinnedUsers, uncachedLogins, List.filterMap_cons, h,
        List.filter_cons] at ih ⊢ <;> omega

/-- C9: the pinned logins resolve into the cached snapshots (in pin-list
order: `pinnedUsers` is the `filterMap` of the cache over the list) and
the missing logins (exactly the pinned logins without a cache entry);
the two parts' counts sum to the pin count; feeding a fetched user back
through `cacheUser` removes exactly its login from the missing list; and
with pins `["a","b"]` and only `"a"` cached the result is `[userA]`
cached and `["b"]` missing. -/
theorem resolve_partition (pins : List String)
    (cache : String → Option User) :
    ((pinnedUsers pins cache).length + (uncachedLogins pins cache).length
      = pins.length) ∧
    (pinnedUsers pins cache = pins.filterMap (fun l => cache l)) ∧
    (∀ l, l ∈ uncachedLogins pins cache ↔ (l ∈ pins ∧ cache l = none)) ∧
    (∀ v : User, uncachedLogins pins (cacheUser v cache) =
      (uncachedLogins pins cache).filter (fun l => l != v.login)) ∧
    (pinnedUsers ["a", "b"] cacheA = [userA] ∧
      uncachedLogins ["a", "b"] cacheA = ["b"]) := by
  refine ⟨pinnedUsers_length_add_uncached_length pins cache, ?_, ?_, ?_,
    by decide, by decide⟩
  · unfold pinnedUsers
    rw [List.filterMap_map]
    rfl
  · intro l
    simp [uncachedLogins, List.mem_filter, Option.isNone_iff_eq_none]
  · intro v
    unfold uncachedLogins
    rw [List.filter_filter]
    apply List.filter_congr
    intro l _
    by_cases hl : l = v.login <;> simp [cacheUser, hl]

/-- C9 witness: instantiating the partition at the spec's example. -/
theorem resolve_partition_witness :
    ("b" ∈ uncachedLogins ["a", "b"] cacheA ↔
      ("b" ∈ ["a", "b"] ∧ cacheA "b" = none)) ∧
    (pinnedUsers ["a", "b"] cacheA).length +
      (uncachedLogins ["a", "b"] cacheA).length = 2 :=
  ⟨(resolve_partition ["a", "b"] cacheA).2.2.1 "b",
   (resolve_partition ["a", "b"] cacheA).1⟩

/-! ## Claim theorems: preference defaults -/

/-- C10: a goal preference that is an invalid numeric string
(`Number(...)` is `NaN`) falls back to its default — 6 hours, 39 minutes
— and the default goal is `6*3600 + 39*60 = 23940` seconds. -/
theorem invalid_goal_prefs_default (p : Preferences) :
    (jsNumberPref p.goalHours = none → effectiveGoalHours p = 6) ∧
    (jsNumberPref p.goalMinutes = none → effectiveGoalMinutes p = 39) ∧
    goalSeconds 6 39 = 23940 := by
  refine ⟨fun h => ?_, fun h => ?_, by decide⟩ <;>
    simp [effectiveGoalHours, effectiveGoalMinutes, numberOr, h]

/-- C10 witness: `"abc"` and `"6h"` are invalid numeric strings, so the
effective goal is the default 6h39m. -/
theorem invalid_goal_prefs_default_witness :
    effectiveGoalHours ⟨"", "", none, none, some "abc", some "6h"⟩ = 6 ∧
    effectiveGoalMinutes ⟨"", "", none, none, some "abc", some "6h"⟩ = 39 ∧
    goalSeconds 6 39 = 23940 :=
  ⟨(invalid_goal_prefs_default ⟨"", "", none, none, some "abc", some "6h"⟩).1
      (by decide),
   (invalid_goal_prefs_default ⟨"", "", none, none, some "abc", some "6h"⟩).2.1
      (by decide),
   (invalid_goal_prefs_default ⟨"", "", none, none, some "abc", some "6h"⟩).2.2⟩

end FtApi
